import Mathlib

/-
  Verification of the reconciliation engine of the HuggingFace File
  Checker userscript (src/tampermonkey/hf-file-checker.user.js).

  The JavaScript is shallowly embedded as executable Lean functions:
  - JS strings are Lean String; a nullable string field whose only use
    in the script is truthiness-testing and string comparison after an
    `x or-else empty-string` coalescing is modelled as a String with ""
    standing for null/undefined (the script never distinguishes them);
    a field compared with strict equality against possibly-undefined
    values is modelled as Option String.
  - JS string primitives (split, trim, toLowerCase, startsWith,
    endsWith) are re-implemented structurally on the character list so
    every definition kernel-evaluates.
  - The asynchronous scan pass is modelled as a pure function over an
    explicit state; its try/finally in-flight guard is a combinator
    over a body that may also abort exceptionally.
  - The debounced MutationObserver callback and navigation are modelled
    as events of a small transition system folded over event traces.
-/

namespace HFC

/-! ## JS string primitives -/

/-- JS `a || b` on a nullable string: `b` when `a` is null/undefined/"". -/
def jsOr (o : Option String) (d : String) : String :=
  match o with
  | some s => if s == "" then d else s
  | none => d

/-- JS `String.prototype.startsWith`. -/
def jsStartsWith (s p : String) : Bool :=
  p.data.isPrefixOf s.data

/-- JS `String.prototype.endsWith`. -/
def jsEndsWith (s p : String) : Bool :=
  p.data.isSuffixOf s.data

/-- JS `String.prototype.toLowerCase` (ASCII, as used on hex digests
and filenames). -/
def jsToLower (s : String) : String :=
  String.mk (s.data.map Char.toLower)

/-- JS `String.prototype.trim`. -/
def jsTrim (s : String) : String :=
  String.mk (((s.data.dropWhile Char.isWhitespace).reverse.dropWhile
    Char.isWhitespace).reverse)

def splitSlashAux : List Char → List Char → List String
  | [], acc => [String.mk acc.reverse]
  | c :: cs, acc =>
    if c = '/' then String.mk acc.reverse :: splitSlashAux cs []
    else splitSlashAux cs (c :: acc)

/-- JS `path.split('/')`. -/
def splitSlash (s : String) : List String :=
  splitSlashAux s.data []

/-! ## Data model -/

/-- One entry of the full-repository manifest returned by
`POST /api/check/repo` (the `files` array). `path` is Option because
the script guards every use with `f.path || f.filename` or
`f.path && ...`; `sha256 = ""` models an absent hash. -/
structure ManifestEntry where
  path : Option String
  filename : String
  sha256 : String
  size : Nat
  status : String
deriving Repr, DecidableEq

/-- The `/api/check/repo` payload cached in `state.repoData`. -/
structure RepoData where
  repo_id : String
  total_files : Nat
  found : Nat
  missing : Nat
  mismatch : Nat
  found_size : Nat
  missing_size : Nat
  files : List ManifestEntry
deriving Repr, DecidableEq

/-- A file reference extracted from the page by `findAllFileRows`:
`sha256` starts as null (modelled ""), `fullPath` is absent for rows
found by the fallback detection method. -/
structure FileRow where
  filename : String
  fullPath : Option String
  sha256 : String
deriving Repr, DecidableEq

/-- One entry of the `results` map returned by `POST /api/check/batch`. -/
structure BatchResult where
  found : Bool
  mismatch : Bool
  directories : List String
deriving Repr, DecidableEq

/-- The batch response: a map from lookup key (lower-cased hash or
lower-cased trimmed filename) to result, modelled as an association
list. -/
abbrev BatchResults := List (String × BatchResult)

/-- JS object indexing `results[key]`. -/
def findResult (rs : BatchResults) (key : String) : Option BatchResult :=
  (rs.find? (fun kv => kv.1 == key)).map (fun kv => kv.2)

/-- Session counters (`state.stats`). -/
structure Stats where
  matches' : Nat
  mismatches : Nat
  missing : Nat
  total : Nat
deriving Repr, DecidableEq

/-- The script's process-wide mutable state (`state` plus the
`isScanning` guard and `window.location`). -/
structure St where
  connected : Bool
  repoData : Option RepoData
  stats : Stats
  isScanning : Bool
  lastUrl : Option String
  url : String
deriving Repr, DecidableEq

/-- A page row together with its rendered status icon (none = no
`.hfc-icon` child) and its `data-hfc-processed` marker. -/
structure PageRow where
  file : FileRow
  icon : Option String
  processed : Bool
deriving Repr, DecidableEq

/-- The visible page: file rows and folder rows (folder path with its
icon). -/
structure Page where
  rows : List PageRow
  folders : List (String × Option String)
deriving Repr, DecidableEq

/-- Outcomes of the external calls a single scan pass performs:
the `/api/status` probe, the `/api/check/repo` fetch (attempted only
when folders are visible and no manifest is cached) and the
`/api/check/batch` call, whose `none` models the catch branch of
`checkFiles` (the call failed or threw). -/
structure ScanIO where
  serverUp : Bool
  repoFetch : Except Unit RepoData
  batch : Option BatchResults

/-! ## Repo context resolver (`getRepoInfoFromUrl`) -/

structure RepoInfo where
  repoId : String
  repoType : String
  revision : String
deriving Repr, DecidableEq

/-- `getRepoInfoFromUrl`, lines 1045-1077 of the script. -/
def getRepoInfoFromUrl (path : String) : Option RepoInfo :=
  let parts := (splitSlash path).filter (fun p => p != "")
  let td :=
    if parts.getD 0 "" == "datasets" then ("dataset", 1)
    else if parts.getD 0 "" == "spaces" then ("space", 1)
    else ("model", 0)
  let repoType := td.1
  let startIdx := td.2
  if parts.length < startIdx + 2 then none
  else
    let owner := parts.getD startIdx ""
    let repo := parts.getD (startIdx + 1) ""
    let revision :=
      match parts.findIdx? (fun p => p == "tree") with
      | some i => if parts.getD (i + 1) "" != "" then parts.getD (i + 1) "" else "main"
      | none => "main"
    some { repoId := owner ++ "/" ++ repo, repoType := repoType, revision := revision }

/-! ## Folder aggregator (`calculateFolderStatus`) -/

/-- The filter on lines 607-610: entries whose `path || filename`
starts with `folderPath + '/'` or equals `folderPath`. -/
def selectedEntries (folderPath : String) (allFiles : List ManifestEntry) :
    List ManifestEntry :=
  allFiles.filter (fun f =>
    let filePath := jsOr f.path f.filename
    jsStartsWith filePath (folderPath ++ "/") || filePath == folderPath)

structure FolderStats where
  status : String
  found : Nat
  missing : Nat
  mismatch : Nat
  total : Nat
deriving Repr, DecidableEq

/-- `calculateFolderStatus`, lines 606-633 of the script. -/
def calculateFolderStatus (folderPath : String) (allFiles : List ManifestEntry) :
    FolderStats :=
  let filesInFolder := selectedEntries folderPath allFiles
  if filesInFolder.length = 0 then
    { status := "unknown", found := 0, missing := 0, mismatch := 0, total := 0 }
  else
    let found := (filesInFolder.filter (fun f => f.status == "found")).length
    let missing := (filesInFolder.filter (fun f => f.status == "missing")).length
    let mismatch := (filesInFolder.filter (fun f => f.status == "mismatch")).length
    let total := filesInFolder.length
    let status :=
      if found = total then "match"
      else if missing = total then "missing"
      else if 0 < found ∨ 0 < mismatch then "partial"
      else "missing"
    { status := status, found := found, missing := missing,
      mismatch := mismatch, total := total }

/-! ## Matching algorithm (scan loop, lines 863-928) -/

/-- The manifest lookup of lines 868-873, used to enrich a row that
has no hash. -/
def enrichCandidate (rd : RepoData) (r : FileRow) : Option ManifestEntry :=
  rd.files.find? (fun f =>
    f.path == r.fullPath ||
    f.path == some r.filename ||
    f.filename == r.filename ||
    (let p := jsOr f.path ""
     p != "" && jsEndsWith p ("/" ++ r.filename)))

/-- Hash enrichment, lines 863-879: when the row has no hash and a
manifest is cached, copy the hash of the first matching manifest entry
onto the row. -/
def enrichRow (repoData : Option RepoData) (r : FileRow) : FileRow :=
  if r.sha256 == "" then
    match repoData with
    | none => r
    | some rd =>
      match enrichCandidate rd r with
      | none => r
      | some repoFile =>
        if repoFile.sha256 != "" then { r with sha256 := repoFile.sha256 } else r
  else r

/-- The two-tier key resolution of lines 900-913: try the lower-cased
hash key first, then fall back to the trimmed lower-cased filename key. -/
def resolvedEntry (rs : BatchResults) (r : FileRow) : Option BatchResult :=
  let filename := jsToLower (jsTrim r.filename)
  let sha := jsToLower r.sha256
  let fromHash := if sha == "" then none else findResult rs sha
  match fromHash with
  | some x => some x
  | none => findResult rs filename

/-- Verdict mapping of lines 916-927: `found ∧ ¬mismatch` is a match,
`found ∧ mismatch` is a mismatch, anything else is missing. -/
def resolveVerdict (rs : BatchResults) (r : FileRow) : String :=
  match resolvedEntry rs r with
  | some x => if x.found then (if x.mismatch then "mismatch" else "match") else "missing"
  | none => "missing"

/-! ## The scan pass (`scanCurrentPage`, lines 779-937) -/

/-- `checkFiles`, lines 491-501: returns null when disconnected or when
the batch call fails. -/
def checkFiles (connected : Bool) (batch : Option BatchResults) : Option BatchResults :=
  if connected then batch else none

/-- Everything the pass produces: the new session state, the new page
annotations, and a log of the folder aggregations performed, each
recording the folder path and the `repo_id` of the manifest used. -/
structure ScanOut where
  st : St
  page : Page
  log : List (String × String)
deriving Repr

/-- Lines 827-842: fetch the full-repo manifest when folder rows are
visible and no manifest is cached; a fetch error is caught and leaves
the cache untouched. -/
def fetchRepoIfNeeded (s : St) (folders : List (String × Option String))
    (io : ScanIO) : St :=
  if !folders.isEmpty && s.repoData.isNone then
    match getRepoInfoFromUrl s.url with
    | some _ =>
      match io.repoFetch with
      | .ok d => { s with repoData := some d }
      | .error _ => s
    | none => s
  else s

/-- Lines 844-856: annotate each folder from the cached manifest, or
mark all folders unknown when no manifest is available. The log pairs
each aggregated folder with the `repo_id` of the manifest snapshot the
aggregation used. -/
def folderVerdicts (s : St) (folders : List (String × Option String)) :
    List (String × Option String) × List (String × String) :=
  match s.repoData with
  | some d =>
    (folders.map (fun fc => (fc.1, some (calculateFolderStatus fc.1 d.files).status)),
     folders.map (fun fc => (fc.1, d.repo_id)))
  | none =>
    (folders.map (fun fc => (fc.1, some "unknown")), [])

/-- Lines 858-930: per-file processing. Enrich each row from the cached
manifest, run the batch lookup, and either mark every row unknown (batch
failure) or assign verdicts and counters from the response. -/
def checkRows (s : St) (rows : List PageRow) (io : ScanIO) :
    St × List PageRow :=
  if rows.isEmpty then (s, rows)
  else
    let s1 := { s with stats := { s.stats with total := rows.length } }
    let rows1 := rows.map (fun rc => { rc with file := enrichRow s1.repoData rc.file })
    match checkFiles s1.connected io.batch with
    | none =>
      (s1, rows1.map (fun rc => { rc with icon := some "unknown" }))
    | some rs =>
      let verdicts := rows1.map (fun rc => resolveVerdict rs rc.file)
      ({ s1 with stats :=
          { matches' := verdicts.count "match",
            mismatches := verdicts.count "mismatch",
            missing := verdicts.count "missing",
            total := s1.stats.total } },
       rows1.map (fun rc => { rc with icon := some (resolveVerdict rs rc.file) }))

/-- The connected part of the scan body (lines 810-930): all rows are
re-collected (the pass just cleared every processed marker) and marked
loading - the loading annotation overwrites both fields the clearing
step reset, so the composition is one map; folders likewise; then the
manifest is fetched if needed, folders are aggregated and files
checked. -/
def scanBodyUp (s : St) (page : Page) (io : ScanIO) : ScanOut :=
  let rowsL := page.rows.map (fun rc => { rc with processed := true, icon := some "loading" })
  let foldersL := page.folders.map (fun fc => (fc.1, some "loading"))
  let s2 := fetchRepoIfNeeded s foldersL io
  ⟨(checkRows s2 rowsL io).1,
   ⟨(checkRows s2 rowsL io).2, (folderVerdicts s2 foldersL).1⟩,
   (folderVerdicts s2 foldersL).2⟩

/-- The body of the try block of `scanCurrentPage` (lines 786-933):
reset counters, clear every icon and processed marker, record the probe
result, and return early when disconnected (leaving the cleared page as
is); otherwise proceed with the connected scan. -/
def scanBody (s : St) (page : Page) (io : ScanIO) : ScanOut :=
  if io.serverUp = false then
    ⟨{ s with stats := ⟨0, 0, 0, 0⟩, connected := io.serverUp },
     ⟨page.rows.map (fun rc => { rc with icon := (none : Option String), processed := false }),
      page.folders.map (fun fc => (fc.1, (none : Option String)))⟩, []⟩
  else
    scanBodyUp { s with stats := ⟨0, 0, 0, 0⟩, connected := io.serverUp } page io

/-- The guard-and-finally skeleton of `scanCurrentPage` (lines 780-784
and 934-936): drop the call when a pass is in flight, otherwise set the
flag, run the body, and clear the flag on every exit - normal or
exceptional (the body's error value carries the state and page at the
point of the throw). -/
def runGuardedE (body : St → Page → ScanIO → Except (St × Page) ScanOut)
    (s : St) (page : Page) (io : ScanIO) : ScanOut :=
  if s.isScanning then ⟨s, page, []⟩
  else
    match body { s with isScanning := true } page io with
    | .ok out => ⟨{ out.st with isScanning := false }, out.page, out.log⟩
    | .error e => ⟨{ e.1 with isScanning := false }, e.2, []⟩

def scanBodyE (s : St) (page : Page) (io : ScanIO) : Except (St × Page) ScanOut :=
  .ok (scanBody s page io)

/-- `scanCurrentPage`, lines 779-937. -/
def scanCurrentPage (s : St) (page : Page) (io : ScanIO) : ScanOut :=
  runGuardedE scanBodyE s page io

/-! ## Auto-fetch and the mutation observer (lines 969-1009, 1288-1311) -/

/-- `autoFetchRepoData`, lines 969-1009: skipped when disconnected, when
no repo context resolves, or when the cached manifest already belongs to
the resolved repo; a fetch error is caught. -/
def autoFetchRepoData (s : St) (resp : Except Unit RepoData) : St :=
  if !s.connected then s
  else
    match getRepoInfoFromUrl s.url with
    | none => s
    | some info =>
      if (match s.repoData with
          | some d => d.repo_id == info.repoId
          | none => false) then s
      else
        match resp with
        | .ok result =>
          { s with repoData := some result,
                   stats := { matches' := result.found, mismatches := result.mismatch,
                              missing := result.missing, total := result.total_files } }
        | .error _ => s

/-- Lines 1292-1301 of the observer callback: on a detected URL change,
record the new URL and, when the resolved repo differs from the cached
manifest's repo, drop the cache and refetch. -/
def tickUrlUpdate (s : St) (resp : Except Unit RepoData) : St :=
  if s.lastUrl == some s.url then s
  else
    let s1 := { s with lastUrl := some s.url }
    match getRepoInfoFromUrl s1.url with
    | some info =>
      match s1.repoData with
      | some d =>
        if d.repo_id != info.repoId then
          autoFetchRepoData { s1 with repoData := none } resp
        else s1
      | none => s1
    | none => s1

/-- The debounced MutationObserver callback, lines 1288-1311: guarded by
`connected` and the in-flight flag, it handles a possible URL change,
re-collects the rows not yet carrying a processed marker, and starts a
scan only when at least one of them has no icon. The Bool reports
whether a scan was started. -/
def mutationTick (s : St) (page : Page) (resp : Except Unit RepoData)
    (io : ScanIO) : ScanOut × Bool :=
  if s.connected && !s.isScanning then
    let s1 := tickUrlUpdate s resp
    let fresh := page.rows.filter (fun rc => !rc.processed)
    let page1 : Page := { page with rows := page.rows.map (fun rc => { rc with processed := true }) }
    let unprocessed := fresh.filter (fun rc => rc.icon.isNone)
    if unprocessed.isEmpty then (⟨s1, page1, []⟩, false)
    else (scanCurrentPage s1 page1 io, true)
  else (⟨s, page, []⟩, false)

/-! ## Event traces -/

structure World where
  st : St
  page : Page
  log : List (String × String)

/-- External events driving the script: an SPA navigation (new location
and new page content), the initial auto-fetch of repo data, a direct
call of the page scan (the Rescan-This-Page button), and a debounced
observer tick. -/
inductive Ev where
  | navigate (url : String) (page : Page)
  | autoFetch (resp : Except Unit RepoData)
  | pageScan (io : ScanIO)
  | tick (resp : Except Unit RepoData) (io : ScanIO)

def stepW (w : World) : Ev → World
  | Ev.navigate u pg => { w with st := { w.st with url := u }, page := pg }
  | Ev.autoFetch r => { w with st := autoFetchRepoData w.st r }
  | Ev.pageScan io =>
    let out := scanCurrentPage w.st w.page io
    { st := out.st, page := out.page, log := w.log ++ out.log }
  | Ev.tick r io =>
    let out := (mutationTick w.st w.page r io).1
    { st := out.st, page := out.page, log := w.log ++ out.log }

def runW (w : World) (evs : List Ev) : World :=
  evs.foldl stepW w

/-! ## The in-flight guard as an interleaving machine

`scanCurrentPage` is async: its synchronous prefix checks and sets
`isScanning` (lines 780-784) and its finally clause clears it (lines
934-936); everything in between may interleave with new triggers. A
trigger (button, observer tick, navigation) and a pass completion are
the two events; the ghost fields `active` and `started` count passes in
flight and passes ever begun. -/

structure SchedState where
  isScanning : Bool
  active : Nat
  started : Nat
deriving Repr, DecidableEq

inductive SchedEv where
  | trigger
  | finish
deriving Repr, DecidableEq

def schedStep (s : SchedState) : SchedEv → SchedState
  | SchedEv.trigger =>
    if s.isScanning then s
    else { isScanning := true, active := s.active + 1, started := s.started + 1 }
  | SchedEv.finish =>
    if s.isScanning then { s with isScanning := false, active := s.active - 1 }
    else s

def schedInit : SchedState := ⟨false, 0, 0⟩

def schedRun (s : SchedState) (evs : List SchedEv) : SchedState :=
  evs.foldl schedStep s

/-! ## Helper lemmas -/

lemma mk_eq_empty_iff (l : List Char) : String.mk l = "" ↔ l = [] := by
  constructor
  · intro h
    have hd := congrArg String.data h
    simpa using hd
  · intro h
    subst h
    rfl

lemma jsToLower_ne_empty {s : String} (h : s ≠ "") : jsToLower s ≠ "" := by
  intro hc
  apply h
  unfold jsToLower at hc
  rw [mk_eq_empty_iff] at hc
  obtain ⟨l⟩ := s
  have hl : l = [] := by simpa using hc
  subst hl
  rfl

/-! ## Claims C1, C2: the matching algorithm -/

/-- Claim C1: for a file reference whose content hash is present and
maps (after lower-casing) to a batch entry with found and no mismatch,
the verdict is "match", whatever the filename maps to: the hash tier
wins. -/
theorem hash_tier_wins (rs : BatchResults) (r : FileRow) (e : BatchResult)
    (hsha : r.sha256 ≠ "")
    (hfind : findResult rs (jsToLower r.sha256) = some e)
    (hfound : e.found = true) (hmis : e.mismatch = false) :
    resolveVerdict rs r = "match" := by
  have hne : jsToLower r.sha256 ≠ "" := jsToLower_ne_empty hsha
  simp only [resolveVerdict, resolvedEntry]
  rw [if_neg (by simpa using hne)]
  rw [hfind]
  simp [hfound, hmis]

/-- Witness for C1: the hash key resolves to a matching entry while the
filename key maps to a non-found entry; the verdict is still "match". -/
theorem hash_tier_wins_witness :
    resolveVerdict
      [("abc", ⟨true, false, []⟩), ("wrong.bin", ⟨false, false, []⟩)]
      ⟨"wrong.bin", none, "ABC"⟩ = "match" :=
  hash_tier_wins _ _ ⟨true, false, []⟩ (by decide) (by decide) rfl rfl

/-- Claim C2: a hashless reference whose trimmed lower-cased filename
maps to found-with-mismatch gets "mismatch"; in general a resolved entry
with found and no mismatch gives "match", found with mismatch gives
"mismatch", and any other entry or an absent key gives "missing". -/
theorem verdict_mapping :
    (∀ (rs : BatchResults) (r : FileRow) (e : BatchResult),
       r.sha256 = "" →
       findResult rs (jsToLower (jsTrim r.filename)) = some e →
       e.found = true → e.mismatch = true →
       resolveVerdict rs r = "mismatch")
  ∧ (∀ (rs : BatchResults) (r : FileRow) (e : BatchResult),
       resolvedEntry rs r = some e → e.found = true → e.mismatch = false →
       resolveVerdict rs r = "match")
  ∧ (∀ (rs : BatchResults) (r : FileRow) (e : BatchResult),
       resolvedEntry rs r = some e → e.found = true → e.mismatch = true →
       resolveVerdict rs r = "mismatch")
  ∧ (∀ (rs : BatchResults) (r : FileRow) (e : BatchResult),
       resolvedEntry rs r = some e → e.found = false →
       resolveVerdict rs r = "missing")
  ∧ (∀ (rs : BatchResults) (r : FileRow),
       resolvedEntry rs r = none → resolveVerdict rs r = "missing") := by
  refine ⟨?_, ?_, ?_, ?_, ?_⟩
  · intro rs r e hsha hfind hfound hmis
    simp only [resolveVerdict, resolvedEntry, hsha]
    rw [if_pos (by decide)]
    rw [hfind]
    simp [hfound, hmis]
  · intro rs r e hres hfound hmis
    simp [resolveVerdict, hres, hfound, hmis]
  · intro rs r e hres hfound hmis
    simp [resolveVerdict, hres, hfound, hmis]
  · intro rs r e hres hfound
    simp [resolveVerdict, hres, hfound]
  · intro rs r hres
    simp [resolveVerdict, hres]

/-- Witness for C2: a hashless row whose trimmed lower-cased filename
maps to found-with-mismatch resolves to "mismatch". -/
theorem verdict_mapping_witness :
    resolveVerdict [("a.bin", ⟨true, true, []⟩)] ⟨" A.bin ", none, ""⟩ = "mismatch" :=
  verdict_mapping.1 _ _ ⟨true, true, []⟩ rfl (by decide) rfl rfl

/-! ## Claim C6: idempotent enrichment -/

lemma enrichRow_cases (rd : Option RepoData) (r : FileRow) :
    enrichRow rd r = r ∨ (enrichRow rd r).sha256 ≠ "" := by
  by_cases h : r.sha256 = ""
  · cases rd with
    | none => left; simp [enrichRow, h]
    | some d =>
      cases hc : enrichCandidate d r with
      | none => left; simp [enrichRow, h, hc]
      | some repoFile =>
        by_cases hf : repoFile.sha256 = ""
        · left; simp [enrichRow, h, hc, hf]
        · right; simp [enrichRow, h, hc, hf]
  · left; simp [enrichRow, h]

/-- Claim C6: enrichment never alters a reference that already carries
a hash, and running enrichment twice equals running it once. -/
theorem enrichment_idempotent :
    (∀ (rd : Option RepoData) (r : FileRow), r.sha256 ≠ "" → enrichRow rd r = r)
  ∧ (∀ (rd : Option RepoData) (r : FileRow),
       enrichRow rd (enrichRow rd r) = enrichRow rd r) := by
  have h1 : ∀ (rd : Option RepoData) (r : FileRow), r.sha256 ≠ "" → enrichRow rd r = r := by
    intro rd r h
    unfold enrichRow
    rw [if_neg (by simpa using h)]
  refine ⟨h1, ?_⟩
  intro rd r
  rcases enrichRow_cases rd r with he | he
  · rw [he]
    exact he
  · exact h1 rd _ he

/-- Witness for C6: a reference that already carries the hash "abc" is
untouched by enrichment against a manifest offering a different hash. -/
theorem enrichment_idempotent_witness :
    enrichRow
      (some ⟨"u/r", 1, 1, 0, 0, 4, 0, [⟨some "a.bin", "a.bin", "ffff", 4, "found"⟩]⟩)
      ⟨"a.bin", some "a.bin", "abc"⟩ = ⟨"a.bin", some "a.bin", "abc"⟩ :=
  enrichment_idempotent.1 _ _ (by decide)

/-! ## Claim C3: the folder aggregator -/

lemma status_count_sum (l : List ManifestEntry)
    (h : ∀ f ∈ l, f.status = "found" ∨ f.status = "missing" ∨ f.status = "mismatch") :
    (l.filter (fun f => f.status == "found")).length
      + (l.filter (fun f => f.status == "missing")).length
      + (l.filter (fun f => f.status == "mismatch")).length = l.length := by
  induction l with
  | nil => simp
  | cons f t ih =>
    have hf := h f (List.mem_cons_self f t)
    have ht : ∀ g ∈ t, g.status = "found" ∨ g.status = "missing" ∨ g.status = "mismatch" :=
      fun g hg => h g (List.mem_cons_of_mem f hg)
    have iht := ih ht
    have e1 : (("found" : String) == "missing") = false := by decide
    have e2 : (("found" : String) == "mismatch") = false := by decide
    have e3 : (("missing" : String) == "found") = false := by decide
    have e4 : (("missing" : String) == "mismatch") = false := by decide
    have e5 : (("mismatch" : String) == "found") = false := by decide
    have e6 : (("mismatch" : String) == "missing") = false := by decide
    rcases hf with hf | hf | hf <;>
      simp [List.filter_cons, hf, e1, e2, e3, e4, e5, e6] <;> omega

lemma calcStatus_of_ne (fp : String) (entries : List ManifestEntry)
    (h : (selectedEntries fp entries).length ≠ 0) :
    calculateFolderStatus fp entries =
      { status :=
          if ((selectedEntries fp entries).filter (fun f => f.status == "found")).length
              = (selectedEntries fp entries).length then "match"
          else if ((selectedEntries fp entries).filter (fun f => f.status == "missing")).length
              = (selectedEntries fp entries).length then "missing"
          else if 0 < ((selectedEntries fp entries).filter (fun f => f.status == "found")).length
              ∨ 0 < ((selectedEntries fp entries).filter (fun f => f.status == "mismatch")).length
            then "partial"
          else "missing",
        found := ((selectedEntries fp entries).filter (fun f => f.status == "found")).length,
        missing := ((selectedEntries fp entries).filter (fun f => f.status == "missing")).length,
        mismatch := ((selectedEntries fp entries).filter (fun f => f.status == "mismatch")).length,
        total := (selectedEntries fp entries).length } := by
  unfold calculateFolderStatus
  rw [if_neg h]

/-- Claim C3: the aggregator selects exactly the manifest entries whose
path equals the folder path or starts with folderPath followed by "/"
(when entries carry paths, as manifest entries do), and classifies:
no selected entry gives "unknown", all "found" gives "match", all
"missing" gives "missing", and any other mix of the three entry
statuses gives "partial". -/
theorem folder_classification (folderPath : String) (entries : List ManifestEntry) :
    ((∀ f ∈ entries, f.path ≠ none ∧ f.path ≠ some "") →
       selectedEntries folderPath entries =
         entries.filter (fun f =>
           match f.path with
           | some p => p == folderPath || jsStartsWith p (folderPath ++ "/")
           | none => false))
  ∧ (selectedEntries folderPath entries = [] →
       (calculateFolderStatus folderPath entries).status = "unknown")
  ∧ (selectedEntries folderPath entries ≠ [] →
       (∀ f ∈ selectedEntries folderPath entries, f.status = "found") →
       (calculateFolderStatus folderPath entries).status = "match")
  ∧ (selectedEntries folderPath entries ≠ [] →
       (∀ f ∈ selectedEntries folderPath entries, f.status = "missing") →
       (calculateFolderStatus folderPath entries).status = "missing")
  ∧ (selectedEntries folderPath entries ≠ [] →
       (∀ f ∈ selectedEntries folderPath entries,
          f.status = "found" ∨ f.status = "missing" ∨ f.status = "mismatch") →
       ¬(∀ f ∈ selectedEntries folderPath entries, f.status = "found") →
       ¬(∀ f ∈ selectedEntries folderPath entries, f.status = "missing") →
       (calculateFolderStatus folderPath entries).status = "partial") := by
  refine ⟨?_, ?_, ?_, ?_, ?_⟩
  · intro hp
    unfold selectedEntries
    apply List.filter_congr
    intro f hf
    obtain ⟨hn, he⟩ := hp f hf
    match hpath : f.path with
    | none => exact absurd hpath hn
    | some p =>
      have hpe : p ≠ "" := by
        intro hc
        exact he (hc ▸ hpath)
      simp only [jsOr]
      rw [if_neg (by simpa using hpe)]
      exact Bool.or_comm _ _
  · intro hsel
    unfold calculateFolderStatus
    rw [if_pos (by rw [hsel]; rfl)]
  · intro hne hall
    have hlen : (selectedEntries folderPath entries).length ≠ 0 := by
      simpa using fun hc => hne (List.length_eq_zero.mp hc)
    have hfilt : (selectedEntries folderPath entries).filter (fun f => f.status == "found")
        = selectedEntries folderPath entries := by
      apply List.filter_eq_self.mpr
      intro f hf
      simpa using hall f hf
    rw [calcStatus_of_ne _ _ hlen, hfilt, if_pos rfl]
  · intro hne hall
    have hlen : (selectedEntries folderPath entries).length ≠ 0 := by
      simpa using fun hc => hne (List.length_eq_zero.mp hc)
    have hfound : (selectedEntries folderPath entries).filter (fun f => f.status == "found") = [] := by
      apply List.filter_eq_nil_iff.mpr
      intro f hf
      have := hall f hf
      simp [this]
    have hmiss : (selectedEntries folderPath entries).filter (fun f => f.status == "missing")
        = selectedEntries folderPath entries := by
      apply List.filter_eq_self.mpr
      intro f hf
      simpa using hall f hf
    rw [calcStatus_of_ne _ _ hlen, hfound, hmiss]
    simp only [List.length_nil]
    rw [if_neg (fun hc => hlen hc.symm)]
    simp
  · intro hne hok hnf hnm
    have hlen : (selectedEntries folderPath entries).length ≠ 0 := by
      simpa using fun hc => hne (List.length_eq_zero.mp hc)
    have hfoundlt :
        ((selectedEntries folderPath entries).filter (fun f => f.status == "found")).length
          ≠ (selectedEntries folderPath entries).length := by
      intro hc
      apply hnf
      intro f hf
      have := List.filter_eq_self.mp ((List.filter_sublist _).eq_of_length hc) f hf
      simpa using this
    have hmisslt :
        ((selectedEntries folderPath entries).filter (fun f => f.status == "missing")).length
          ≠ (selectedEntries folderPath entries).length := by
      intro hc
      apply hnm
      intro f hf
      have := List.filter_eq_self.mp ((List.filter_sublist _).eq_of_length hc) f hf
      simpa using this
    have hsum := status_count_sum (selectedEntries folderPath entries) hok
    have hOr : 0 < ((selectedEntries folderPath entries).filter (fun f => f.status == "found")).length
        ∨ 0 < ((selectedEntries folderPath entries).filter (fun f => f.status == "mismatch")).length := by
      by_contra hc
      push_neg at hc
      obtain ⟨hc1, hc2⟩ := hc
      exact hmisslt (by omega)
    rw [calcStatus_of_ne _ _ hlen, if_neg hfoundlt, if_neg hmisslt, if_pos hOr]

/-- Witness for C3: a folder holding one found and one missing entry
classifies as "partial". -/
theorem folder_classification_witness :
    (calculateFolderStatus "d"
      [⟨some "d/a.bin", "a.bin", "", 1, "found"⟩,
       ⟨some "d/b.bin", "b.bin", "", 1, "missing"⟩]).status = "partial" :=
  (folder_classification "d"
      [⟨some "d/a.bin", "a.bin", "", 1, "found"⟩,
       ⟨some "d/b.bin", "b.bin", "", 1, "missing"⟩]).2.2.2.2
    (by decide) (by decide) (by decide) (by decide)

/-! ## Scan-pass lemmas -/

lemma fetchRepoIfNeeded_fields (s : St) (folders : List (String × Option String))
    (io : ScanIO) :
    (fetchRepoIfNeeded s folders io).connected = s.connected
  ∧ (fetchRepoIfNeeded s folders io).stats = s.stats
  ∧ (fetchRepoIfNeeded s folders io).isScanning = s.isScanning := by
  unfold fetchRepoIfNeeded
  split
  · split
    · split <;> simp
    · simp
  · simp

lemma scanCurrentPage_eq (s : St) (page : Page) (io : ScanIO)
    (h : s.isScanning = false) :
    scanCurrentPage s page io =
      ⟨{ (scanBody { s with isScanning := true } page io).st with isScanning := false },
       (scanBody { s with isScanning := true } page io).page,
       (scanBody { s with isScanning := true } page io).log⟩ := by
  unfold scanCurrentPage runGuardedE scanBodyE
  rw [if_neg (by simp [h])]

lemma checkRows_batch_none (s : St) (rows : List PageRow) (io : ScanIO)
    (hcon : s.connected = true) (hb : io.batch = none) :
    (∀ rc ∈ (checkRows s rows io).2, rc.icon = some "unknown")
  ∧ (checkRows s rows io).1.stats.matches' = s.stats.matches'
  ∧ (checkRows s rows io).1.stats.mismatches = s.stats.mismatches
  ∧ (checkRows s rows io).1.stats.missing = s.stats.missing := by
  unfold checkRows checkFiles
  rw [hcon, hb]
  split
  · next hemp =>
    have : rows = [] := by simpa [List.isEmpty_iff] using hemp
    simp [this]
  · simp

lemma checkRows_batch_some (s : St) (rows : List PageRow) (io : ScanIO)
    (rs : BatchResults)
    (hcon : s.connected = true) (hb : io.batch = some rs)
    (htot : s.stats.total = 0) :
    (checkRows s rows io).1.stats.total = rows.length
  ∧ (checkRows s rows io).2.map (fun rc => rc.icon)
      = rows.map (fun rc => some (resolveVerdict rs (enrichRow s.repoData rc.file))) := by
  unfold checkRows checkFiles
  rw [hcon, hb]
  split
  · next hemp =>
    have : rows = [] := by simpa [List.isEmpty_iff] using hemp
    simp [this, htot]
  · simp [List.map_map, Function.comp]

lemma scanBodyUp_batch_none (s : St) (page : Page) (io : ScanIO)
    (hcon : s.connected = true) (hb : io.batch = none) :
    (∀ rc ∈ (scanBodyUp s page io).page.rows, rc.icon = some "unknown")
  ∧ (scanBodyUp s page io).st.stats.matches' = s.stats.matches'
  ∧ (scanBodyUp s page io).st.stats.mismatches = s.stats.mismatches
  ∧ (scanBodyUp s page io).st.stats.missing = s.stats.missing := by
  have hf := fetchRepoIfNeeded_fields s
    (page.folders.map (fun fc => (fc.1, some "loading"))) io
  have hc := checkRows_batch_none
    (fetchRepoIfNeeded s (page.folders.map (fun fc => (fc.1, some "loading"))) io)
    (page.rows.map (fun rc => { rc with processed := true, icon := some "loading" }))
    io (by rw [hf.1, hcon]) hb
  simp only [scanBodyUp]
  exact ⟨hc.1, by rw [hc.2.1, hf.2.1], by rw [hc.2.2.1, hf.2.1], by rw [hc.2.2.2, hf.2.1]⟩

/-! ## Claim C10: the in-flight guard is always released -/

/-- Claim C10: every invocation of the scan pass that starts from a
non-scanning state ends with the flag cleared; more generally the
guard-and-finally combinator clears the flag for any body, also one
that aborts exceptionally mid-pass. -/
theorem guard_always_released :
    (∀ (s : St) (page : Page) (io : ScanIO), s.isScanning = false →
       (scanCurrentPage s page io).st.isScanning = false)
  ∧ (∀ (body : St → Page → ScanIO → Except (St × Page) ScanOut)
       (s : St) (page : Page) (io : ScanIO), s.isScanning = false →
       (runGuardedE body s page io).st.isScanning = false) := by
  have h2 : ∀ (body : St → Page → ScanIO → Except (St × Page) ScanOut)
      (s : St) (page : Page) (io : ScanIO), s.isScanning = false →
      (runGuardedE body s page io).st.isScanning = false := by
    intro body s page io h
    unfold runGuardedE
    rw [if_neg (by simp [h])]
    cases body { s with isScanning := true } page io <;> rfl
  exact ⟨fun s page io h => h2 scanBodyE s page io h, h2⟩

/-- Witness for C10: a concrete pass over an empty page with a failing
repo fetch ends with the flag cleared. -/
theorem guard_always_released_witness :
    (scanCurrentPage ⟨false, none, ⟨0, 0, 0, 0⟩, false, none, "/u/r"⟩
      ⟨[], []⟩ ⟨true, .error (), none⟩).st.isScanning = false :=
  guard_always_released.1 _ _ _ rfl

/-! ## Claim C4: lookup failure degrades to unknown -/

/-- Claim C4: when the batch call itself fails (checkFiles returns
null), every file reference of the pass is annotated "unknown" - never
"missing" - and the matches/mismatches/missing counters stay at their
reset value 0. -/
theorem lookup_failure_unknown (s : St) (page : Page) (io : ScanIO)
    (hscan : s.isScanning = false) (hup : io.serverUp = true)
    (hb : io.batch = none) :
    (∀ rc ∈ (scanCurrentPage s page io).page.rows, rc.icon = some "unknown")
  ∧ (scanCurrentPage s page io).st.stats.matches' = 0
  ∧ (scanCurrentPage s page io).st.stats.mismatches = 0
  ∧ (scanCurrentPage s page io).st.stats.missing = 0 := by
  rw [scanCurrentPage_eq s page io hscan]
  dsimp only
  unfold scanBody
  rw [if_neg (by simp [hup])]
  exact scanBodyUp_batch_none _ page io (by simpa using hup) hb

/-- Witness for C4: a pass over one visible row with a failing batch
call annotates it "unknown" and leaves the counters at zero. -/
theorem lookup_failure_unknown_witness :
    (∀ rc ∈ (scanCurrentPage ⟨false, none, ⟨0, 0, 0, 0⟩, false, none, "/u/r"⟩
        ⟨[⟨⟨"a.bin", some "a.bin", ""⟩, none, false⟩], []⟩
        ⟨true, .error (), none⟩).page.rows, rc.icon = some "unknown")
  ∧ (scanCurrentPage ⟨false, none, ⟨0, 0, 0, 0⟩, false, none, "/u/r"⟩
        ⟨[⟨⟨"a.bin", some "a.bin", ""⟩, none, false⟩], []⟩
        ⟨true, .error (), none⟩).st.stats.matches' = 0
  ∧ (scanCurrentPage ⟨false, none, ⟨0, 0, 0, 0⟩, false, none, "/u/r"⟩
        ⟨[⟨⟨"a.bin", some "a.bin", ""⟩, none, false⟩], []⟩
        ⟨true, .error (), none⟩).st.stats.mismatches = 0
  ∧ (scanCurrentPage ⟨false, none, ⟨0, 0, 0, 0⟩, false, none, "/u/r"⟩
        ⟨[⟨⟨"a.bin", some "a.bin", ""⟩, none, false⟩], []⟩
        ⟨true, .error (), none⟩).st.stats.missing = 0 :=
  lookup_failure_unknown _ _ _ rfl rfl rfl

/-! ## Claim C7: connectivity failure

The claim says a pass whose connectivity probe fails still marks every
visible reference "unknown". The code does not: it clears all icons,
records the disconnect, and returns before any annotation is made, so
the references end with no icon at all. -/

/-- The session state before the C7 pass: one visible row, previously
mid-annotation. -/
def c7St : St := ⟨true, none, ⟨0, 0, 0, 0⟩, false, none, "/u/r"⟩

def c7Page : Page := ⟨[⟨⟨"a.bin", some "a.bin", ""⟩, some "loading", true⟩], []⟩

def c7IO : ScanIO := ⟨false, .error (), none⟩

/-- Counterexample to C7: with the probe failing, the session does
record connected = false, but the visible row ends with no icon, not
with the "unknown" verdict the claim requires. -/
theorem connectivity_failure_counterexample :
    (scanCurrentPage c7St c7Page c7IO).st.connected = false
  ∧ (scanCurrentPage c7St c7Page c7IO).page.rows.map (fun rc => rc.icon) = [none]
  ∧ ¬(∀ rc ∈ (scanCurrentPage c7St c7Page c7IO).page.rows,
        rc.icon = some "unknown") := by
  refine ⟨rfl, rfl, ?_⟩
  intro h
  have := h ⟨⟨"a.bin", some "a.bin", ""⟩, none, false⟩ (by decide)
  simp at this

/-- Amended C7: when the connectivity probe fails, the pass records
connected = false and strips every row and folder icon (so no reference
is left "loading"), returning before any verdict - including "unknown" -
is assigned; the in-flight flag is still released. -/
theorem connectivity_failure_clears (s : St) (page : Page) (io : ScanIO)
    (hscan : s.isScanning = false) (hdown : io.serverUp = false) :
    (scanCurrentPage s page io).st.connected = false
  ∧ (scanCurrentPage s page io).page.rows.map (fun rc => rc.icon)
      = page.rows.map (fun _ => none)
  ∧ (scanCurrentPage s page io).page.folders.map (fun fc => fc.2)
      = page.folders.map (fun _ => none)
  ∧ (scanCurrentPage s page io).st.isScanning = false := by
  rw [scanCurrentPage_eq s page io hscan]
  dsimp only
  unfold scanBody
  rw [if_pos hdown]
  refine ⟨by simp [hdown], ?_, ?_, rfl⟩
  · simp [List.map_map, Function.comp_def]
  · simp [List.map_map, Function.comp_def]

/-- Witness for the amended C7 at a concrete disconnected pass. -/
theorem connectivity_failure_clears_witness :
    (scanCurrentPage c7St c7Page c7IO).st.connected = false
  ∧ (scanCurrentPage c7St c7Page c7IO).page.rows.map (fun rc => rc.icon)
      = c7Page.rows.map (fun _ => none)
  ∧ (scanCurrentPage c7St c7Page c7IO).page.folders.map (fun fc => fc.2)
      = c7Page.folders.map (fun _ => none)
  ∧ (scanCurrentPage c7St c7Page c7IO).st.isScanning = false :=
  connectivity_failure_clears c7St c7Page c7IO rfl rfl

/-! ## Claim C5: at most one pass in flight -/

lemma schedStep_inv (s : SchedState) (e : SchedEv)
    (h : s.active = if s.isScanning then 1 else 0) :
    (schedStep s e).active = if (schedStep s e).isScanning then 1 else 0 := by
  cases e <;> unfold schedStep <;> by_cases hs : s.isScanning <;>
    simp [hs] at h ⊢ <;> omega

lemma schedRun_inv (evs : List SchedEv) :
    ∀ s : SchedState, s.active = (if s.isScanning then 1 else 0) →
      (schedRun s evs).active = if (schedRun s evs).isScanning then 1 else 0 := by
  induction evs with
  | nil => intro s h; exact h
  | cons e t ih =>
    intro s h
    exact ih (schedStep s e) (schedStep_inv s e h)

/-- Claim C5: a trigger arriving while the flag is set is a no-op (the
state has no queue, so it is dropped, not deferred); along every event
trace from the initial state at most one pass is in flight; and two
back-to-back triggers start exactly one pass. -/
theorem single_inflight_pass :
    (∀ s : SchedState, s.isScanning = true → schedStep s SchedEv.trigger = s)
  ∧ (∀ evs : List SchedEv, (schedRun schedInit evs).active ≤ 1)
  ∧ (schedRun schedInit [SchedEv.trigger, SchedEv.trigger]).active = 1
  ∧ (schedRun schedInit [SchedEv.trigger, SchedEv.trigger]).started = 1 := by
  refine ⟨?_, ?_, by decide, by decide⟩
  · intro s h
    unfold schedStep
    rw [if_pos h]
  · intro evs
    have hinv := schedRun_inv evs schedInit rfl
    cases h : (schedRun schedInit evs).isScanning <;> simp [h] at hinv <;> omega

/-- Witness for C5: a busy-state trigger is the identity, and a
trigger-finish-trigger trace keeps at most one pass active. -/
theorem single_inflight_pass_witness :
    schedStep ⟨true, 1, 1⟩ SchedEv.trigger = ⟨true, 1, 1⟩
  ∧ (schedRun schedInit [SchedEv.trigger, SchedEv.finish, SchedEv.trigger]).active ≤ 1 :=
  ⟨single_inflight_pass.1 ⟨true, 1, 1⟩ rfl,
   single_inflight_pass.2.1 [SchedEv.trigger, SchedEv.finish, SchedEv.trigger]⟩

/-! ## Claim C8: mutation-triggered passes

The trigger condition of the claim holds: the observer starts a pass
only when a visible row has no icon. Its second half does not: the pass
that then runs clears every icon and re-resolves and re-counts all
rows, annotated ones included. -/

/-- Page for the C8 counterexample: one row already annotated "missing"
from an earlier pass, one new row without an icon. -/
def c8Page : Page :=
  ⟨[⟨⟨"a.bin", some "a.bin", ""⟩, some "missing", true⟩,
    ⟨⟨"b.bin", some "b.bin", ""⟩, none, false⟩], []⟩

def c8St : St := ⟨true, none, ⟨0, 0, 0, 0⟩, false, some "/u/r", "/u/r"⟩

/-- The batch response now reports a.bin as present: the annotated row
would change verdict if it were re-processed. -/
def c8IO : ScanIO := ⟨true, .error (), some [("a.bin", ⟨true, false, []⟩)]⟩

/-- Counterexample to C8: the tick does start a pass (a new row lacks an
icon), but the already annotated row is not left untouched - its icon
changes from "missing" to "match" and it is counted again (total = 2,
and the one match counted is the previously annotated row). -/
theorem annotated_rows_retouched_counterexample :
    (mutationTick c8St c8Page (.error ()) c8IO).2 = true
  ∧ c8Page.rows.map (fun rc => rc.icon) = [some "missing", none]
  ∧ (mutationTick c8St c8Page (.error ()) c8IO).1.page.rows.map (fun rc => rc.icon)
      = [some "match", some "missing"]
  ∧ (mutationTick c8St c8Page (.error ()) c8IO).1.st.stats.total = 2
  ∧ (mutationTick c8St c8Page (.error ()) c8IO).1.st.stats.matches' = 1 := by
  refine ⟨rfl, rfl, ?_, rfl, rfl⟩
  rfl

/-- Amended C8: a mutation tick starts a pass only when some visible
row carries neither a processed marker nor an icon; the pass that runs
then re-resolves every visible row - its final icons depend only on the
batch response, the manifest and the row identities, not on the previous
icons - and counts all of them (total equals the full row count). -/
theorem mutation_pass_trigger_and_rescan :
    (∀ (s : St) (page : Page) (resp : Except Unit RepoData) (io : ScanIO),
       (mutationTick s page resp io).2 = true →
       ∃ rc ∈ page.rows, rc.processed = false ∧ rc.icon = none)
  ∧ (∀ (s : St) (page : Page) (io : ScanIO) (rs : BatchResults),
       s.isScanning = false → io.serverUp = true → io.batch = some rs →
       (scanCurrentPage s page io).st.stats.total = page.rows.length
       ∧ ∃ rd : Option RepoData,
           (scanCurrentPage s page io).page.rows.map (fun rc => rc.icon)
             = page.rows.map (fun rc => some (resolveVerdict rs (enrichRow rd rc.file)))) := by
  constructor
  · intro s page resp io h
    unfold mutationTick at h
    by_cases hg : (s.connected && !s.isScanning) = true
    · rw [if_pos hg] at h
      by_cases hu : (((page.rows.filter (fun rc => !rc.processed)).filter
          (fun rc => rc.icon.isNone)).isEmpty) = true
      · rw [if_pos hu] at h
        exact absurd h (by simp)
      · have hex : ∃ x ∈ page.rows, x.icon = none ∧ x.processed = false := by
          simpa [List.isEmpty_iff] using hu
        obtain ⟨rc, hmem, hicon, hproc⟩ := hex
        exact ⟨rc, hmem, hproc, hicon⟩
    · rw [if_neg hg] at h
      exact absurd h (by simp)
  · intro s page io rs hscan hup hb
    rw [scanCurrentPage_eq s page io hscan]
    dsimp only
    unfold scanBody
    rw [if_neg (by simp [hup])]
    simp only [scanBodyUp]
    have hf := fetchRepoIfNeeded_fields
      { s with isScanning := true, stats := ⟨0, 0, 0, 0⟩, connected := io.serverUp }
      (page.folders.map (fun fc => (fc.1, some "loading"))) io
    have hcr := checkRows_batch_some
      (fetchRepoIfNeeded
        { s with isScanning := true, stats := ⟨0, 0, 0, 0⟩, connected := io.serverUp }
        (page.folders.map (fun fc => (fc.1, some "loading"))) io)
      (page.rows.map (fun rc => { rc with processed := true, icon := some "loading" }))
      io rs (by rw [hf.1]; exact hup) hb (by rw [hf.2.1])
    constructor
    · rw [hcr.1, List.length_map]
    · refine ⟨(fetchRepoIfNeeded
        { s with isScanning := true, stats := ⟨0, 0, 0, 0⟩, connected := io.serverUp }
        (page.folders.map (fun fc => (fc.1, some "loading"))) io).repoData, ?_⟩
      rw [hcr.2]
      simp [List.map_map, Function.comp_def]

/-- Witness for the amended C8 on the concrete C8 page: the pass
re-counts both rows and recomputes both icons from the batch response. -/
theorem mutation_pass_trigger_and_rescan_witness :
    (scanCurrentPage c8St c8Page c8IO).st.stats.total = c8Page.rows.length
  ∧ ∃ rd : Option RepoData,
      (scanCurrentPage c8St c8Page c8IO).page.rows.map (fun rc => rc.icon)
        = c8Page.rows.map (fun rc =>
            some (resolveVerdict [("a.bin", ⟨true, false, []⟩)] (enrichRow rd rc.file))) :=
  mutation_pass_trigger_and_rescan.2 c8St c8Page c8IO
    [("a.bin", ⟨true, false, []⟩)] rfl rfl rfl

/-! ## Claim C9: cache invalidation on repo change

The observer tick does invalidate the cache when it detects a URL
change whose resolved repo differs from the cached manifest's. But a
pass started directly (the Rescan-This-Page button) between a
navigation and the next tick aggregates folders with the stale
manifest, so the claimed invariant - no folder of the new repo is ever
classified with the old repo's entries - fails. -/

/-- Manifest of repo userA/repoA, holding one found file under "sub". -/
def dataA : RepoData :=
  ⟨"userA/repoA", 1, 1, 0, 0, 4, 0,
   [⟨some "sub/model.bin", "model.bin", "abc", 4, "found"⟩]⟩

/-- Initial world: connected session on userA/repoA, nothing cached. -/
def w0 : World :=
  ⟨⟨true, none, ⟨0, 0, 0, 0⟩, false, none, "/userA/repoA"⟩, ⟨[], []⟩, []⟩

/-- The violating trace: auto-fetch repoA's manifest, navigate to
userB/repoB whose page shows the folder "sub", then press
Rescan-This-Page before any observer tick. -/
def c9Trace : List Ev :=
  [Ev.autoFetch (.ok dataA),
   Ev.navigate "/userB/repoB" ⟨[], [("sub", none)]⟩,
   Ev.pageScan ⟨true, .error (), some []⟩]

/-- Counterexample to C9: after the trace the resolver reports
userB/repoB, yet the folder "sub" of that repo was classified "match"
from the still cached manifest of userA/repoA. -/
theorem stale_manifest_counterexample :
    (runW w0 c9Trace).log = [("sub", "userA/repoA")]
  ∧ getRepoInfoFromUrl (runW w0 c9Trace).st.url
      = some ⟨"userB/repoB", "model", "main"⟩
  ∧ (runW w0 c9Trace).page.folders = [("sub", some "match")]
  ∧ ("userA/repoA" : String) ≠ "userB/repoB" := by
  refine ⟨rfl, rfl, rfl, by decide⟩

/-- Amended C9: only the debounced observer tick invalidates the cache,
and it does so whenever it sees a changed URL whose resolved repoId
differs from the cached manifest's: before that tick's own aggregation
the old manifest is replaced by the fresh fetch, or dropped entirely
when the fetch fails. A pass triggered directly between a navigation
and the next tick may still classify folders with the stale manifest. -/
theorem repo_change_invalidation (s : St) (resp : Except Unit RepoData)
    (d : RepoData) (info : RepoInfo)
    (hurl : (s.lastUrl == some s.url) = false)
    (hres : getRepoInfoFromUrl s.url = some info)
    (hcache : s.repoData = some d)
    (hdiff : d.repo_id ≠ info.repoId)
    (hconn : s.connected = true) :
    (tickUrlUpdate s resp).repoData
      = (match resp with | .ok r => some r | .error _ => none) := by
  unfold tickUrlUpdate
  rw [if_neg (by simp [hurl])]
  dsimp only
  rw [hres, hcache]
  dsimp only
  rw [if_pos (by simpa using hdiff)]
  unfold autoFetchRepoData
  rw [if_neg (by simp [hconn])]
  dsimp only
  rw [hres]
  dsimp only
  rw [if_neg (by simp)]
  cases resp <;> rfl

/-- Witness for the amended C9: a tick that sees the navigation from
userA/repoA to userB/repoB with a failing refetch drops the stale
manifest. -/
theorem repo_change_invalidation_witness :
    (tickUrlUpdate
      ⟨true, some dataA, ⟨0, 0, 0, 0⟩, false, some "/userA/repoA", "/userB/repoB"⟩
      (.error ())).repoData = none :=
  repo_change_invalidation _ _ dataA ⟨"userB/repoB", "model", "main"⟩
    (by decide) (by decide) rfl (by decide) rfl

end HFC
